import Mathlib

/-!
Shallow embedding of the townsville-logger repository
(`lib/mapped-syslog.js`, `lib/index.js` — current winston-3 entrypoint —
and the older winston-2 `index.js` variant).

Each definition mirrors one source function; the module-level mutable
variables of `lib/index.js` (`logLevel`, `logLevels`, `appName`,
`showName`, `showPid`, `log`, `nrTransports`) are threaded explicitly as
a `LogState` record.
-/

namespace Townsville

/-- A JavaScript value, restricted to the shapes the logger's settings
fields actually take: `undefined`, `null`, booleans, numbers, strings,
and an (opaque) function value such as the `getUTCTimestamp` default. -/
inductive JSVal where
  | undef
  | null
  | bool (b : Bool)
  | num (n : Int)
  | str (s : String)
  | fn
deriving DecidableEq, Repr

/-- JavaScript truthiness for the modeled value domain. -/
def truthy : JSVal → Bool
  | JSVal.undef => false
  | JSVal.null => false
  | JSVal.bool b => b
  | JSVal.num n => n != 0
  | JSVal.str s => s != ""
  | JSVal.fn => true

/-- Errors a call into the embedded code can raise. -/
inductive JsError where
  /-- `TypeError` from calling a string method on a non-string value. -/
  | typeError
  /-- `new Error('Log system is not initialized')` from `_isToLog`. -/
  | notInitialized
deriving DecidableEq, Repr

/- Constants of `lib/index.js`. -/

def DEFAULT_LOGLEVEL : String := "info"

def DEFAULT_LOGFILE : String := "logging.log"

def DEFAULT_LOGGER_NAME : String := "logger"

def NR_FATAL : Nat := 0

def NR_ERROR : Nat := 10

def NR_WARN : Nat := 20

def NR_INFO : Nat := 30

def NR_DEBUG : Nat := 40

def NR_TRACE : Nat := 50

def SN_NONE : Nat := 0

def SN_SIMPLE : Nat := 1

def SN_FULL : Nat := 2

/-- JavaScript `String.prototype.toLowerCase` on the modeled string
domain: lower-cases every character. -/
def jsToLower (s : String) : String :=
  String.mk (s.data.map Char.toLower)

/-- The `switch (value.toLowerCase())` body of `numLevel`:
the level-name-to-rank table, with `default: return NR_TRACE`. -/
def numLevelStr (value : String) : Nat :=
  let v := jsToLower value
  if v = "fatal" then NR_FATAL
  else if v = "error" then NR_ERROR
  else if v = "warn" then NR_WARN
  else if v = "info" then NR_INFO
  else if v = "debug" then NR_DEBUG
  else if v = "trace" then NR_TRACE
  else NR_TRACE

/-- `numLevel(value)`: calls `value.toLowerCase()`, so a non-string
argument (in particular `undefined`) raises a `TypeError`; a string is
looked up in the table with fallback `NR_TRACE`. -/
def numLevel : JSVal → Except JsError Nat
  | JSVal.str s => Except.ok (numLevelStr s)
  | _ => Except.error JsError.typeError

/-- `strLevel(value)`: rank-to-name table with `default: return 'trace'`. -/
def strLevel (value : Nat) : String :=
  if value = NR_FATAL then "fatal"
  else if value = NR_ERROR then "error"
  else if value = NR_WARN then "warn"
  else if value = NR_INFO then "info"
  else if value = NR_DEBUG then "debug"
  else if value = NR_TRACE then "trace"
  else "trace"

/-- `getShowName(value)`: strings are switched on their lower-cased form
(`'full'` → `SN_FULL`, `'none'`/`'false'` → `SN_NONE`, any other string →
`SN_SIMPLE`); non-strings map truthy → `SN_SIMPLE`, falsy → `SN_NONE`. -/
def getShowName (value : JSVal) : Nat :=
  match value with
  | JSVal.str s =>
    let v := jsToLower s
    if v = "full" then SN_FULL
    else if v = "none" then SN_NONE
    else if v = "false" then SN_NONE
    else SN_SIMPLE
  | v => if truthy v then SN_SIMPLE else SN_NONE

/-- Result of `getFormat(settings)`: the format pipeline always applies
`format.splat()`; `format.colorize()` is prepended when `settings.colorize`
is truthy; the `printf` layout includes a timestamp unless
`settings.timestamp === false`. -/
structure FormatOpts where
  colorize : Bool
  timestamp : Bool
deriving DecidableEq, Repr

/-- `getFormat(settings)`, reading `settings.colorize` and
`settings.timestamp`. -/
def getFormat (timestampV colorizeV : JSVal) : FormatOpts :=
  { colorize := truthy colorizeV,
    timestamp := timestampV != JSVal.bool false }

/-- The `console` section of the settings object. -/
structure ConsoleSettings where
  timestamp : JSVal
  colorize : JSVal
deriving DecidableEq, Repr

/-- The `rollingFile` sub-section of the `file` settings. -/
structure RollingFileSettings where
  maxSize : JSVal
  maxFiles : JSVal
  tailable : JSVal
deriving DecidableEq, Repr

/-- The `file` section of the settings object. `tailable` is the
top-level field of this section (normally absent, i.e. `undefined`),
distinct from `rollingFile.tailable`. -/
structure FileSettings where
  path : JSVal
  timestamp : JSVal
  colorize : JSVal
  rollingFile : Option RollingFileSettings
  tailable : JSVal
deriving DecidableEq, Repr

/-- The `syslog` section of the settings object (only read by the older
`index.js` variant; the current `evaluateSettings` never inspects it). -/
structure SyslogSettings where
  host : JSVal
  port : JSVal
  protocol : JSVal
  path : JSVal
  facility : JSVal
  type : JSVal
deriving DecidableEq, Repr

/-- The options record built by `getConsoleTransport`. -/
structure ConsoleOpts where
  level : String
  fmt : FormatOpts
deriving DecidableEq, Repr

/-- The options record built by `getFileTransport`; fields the code does
not assign stay `undefined`, as in the source's `let opts = {}`. -/
structure FileOpts where
  level : String
  filename : JSVal
  fmt : FormatOpts
  maxsize : JSVal
  maxFiles : JSVal
  tailable : JSVal
deriving DecidableEq, Repr

/-- A constructed winston transport (the current entrypoint builds only
console and file transports). -/
inductive Transport where
  | console (opts : ConsoleOpts)
  | file (opts : FileOpts)
deriving DecidableEq, Repr

/-- The `opts.level` configured on a transport. -/
def Transport.levelOf : Transport → String
  | Transport.console opts => opts.level
  | Transport.file opts => opts.level

/-- `getConsoleTransport(settings, level)`. -/
def getConsoleTransport (settings : ConsoleSettings) (level : String) : ConsoleOpts :=
  { level := level,
    fmt := getFormat settings.timestamp settings.colorize }

/-- `getFileTransport(settings, level)`. Note `opts.tailable` reads the
top-level `settings.tailable`, not `settings.rollingFile.tailable`, in
the non-`undefined` branch. -/
def getFileTransport (settings : FileSettings) (level : String) : FileOpts :=
  let base : FileOpts :=
    { level := level,
      filename := if truthy settings.path then settings.path else JSVal.str DEFAULT_LOGFILE,
      fmt := getFormat settings.timestamp settings.colorize,
      maxsize := JSVal.undef,
      maxFiles := JSVal.undef,
      tailable := JSVal.undef }
  match settings.rollingFile with
  | some rf =>
    { base with
      maxsize := if truthy rf.maxSize then rf.maxSize else JSVal.num 10000000,
      maxFiles := if truthy rf.maxFiles then rf.maxFiles else JSVal.num 10,
      tailable := if rf.tailable = JSVal.undef then JSVal.bool true else settings.tailable }
  | none => base

/-- The caller-supplied settings object. `name`, `level` and the values
of `levels` are modeled at their schema types (level names are strings);
the loosely-typed flags keep the full JS value domain. -/
structure Settings where
  name : Option String
  level : Option String
  levels : Option (List (String × String))
  showName : JSVal
  showPid : JSVal
  console : Option ConsoleSettings
  file : Option FileSettings
  syslog : Option SyslogSettings
  colorize : JSVal
deriving DecidableEq, Repr

/-- `DEFAULT_SETTINGS`: console logger with the UTC timestamp formatter
function as its `timestamp` field. -/
def DEFAULT_SETTINGS : Settings :=
  { name := some DEFAULT_LOGGER_NAME,
    level := some DEFAULT_LOGLEVEL,
    levels := none,
    showName := JSVal.bool true,
    showPid := JSVal.bool false,
    console := some { timestamp := JSVal.fn, colorize := JSVal.undef },
    file := none,
    syslog := none,
    colorize := JSVal.str "true" }

/-- The single winston logger instance (`log`): its transports in
construction order. -/
structure Pipeline where
  transports : List Transport
deriving DecidableEq, Repr

/-- The module-level mutable state of `lib/index.js`. -/
structure LogState where
  logLevel : Nat
  logLevels : List (String × Nat)
  appName : Option String
  showName : Option Nat
  showPid : Option Bool
  log : Option Pipeline
  nrTransports : Nat
deriving DecidableEq, Repr

/-- The state at module load time. -/
def initialState : LogState :=
  { logLevel := numLevelStr DEFAULT_LOGLEVEL,
    logLevels := [],
    appName := none,
    showName := none,
    showPid := none,
    log := none,
    nrTransports := 0 }

/-- Assignment `m[k] = v` on the object modeled as an association list:
overwrites an existing binding, else appends. -/
def setKey (m : List (String × Nat)) (k : String) (v : Nat) : List (String × Nat) :=
  match m with
  | [] => [(k, v)]
  | (k2, v2) :: rest => if k2 = k then (k, v) :: rest else (k2, v2) :: setKey rest k v

/-- Lookup `m[k]` / the `k in m` test on the association list. -/
def lookupKey (m : List (String × Nat)) (k : String) : Option Nat :=
  match m with
  | [] => none
  | (k2, v) :: rest => if k2 = k then some v else lookupKey rest k

/-- `getLogLevels(settings)`: adds `numLevel` of every entry to the
`logLevels` lookup. -/
def getLogLevels (settings : List (String × String))
    (logLevels : List (String × Nat)) : List (String × Nat) :=
  settings.foldl (fun acc kv => setKey acc kv.1 (numLevelStr kv.2)) logLevels

/-- The scan inside `determineTransLevel`: start from the default
`logLevel` and take every per-module level that is larger. -/
def maxOverLevels (logLevel : Nat) (logLevels : List (String × Nat)) : Nat :=
  logLevels.foldl (fun minLevel kv => if kv.2 > minLevel then kv.2 else minLevel) logLevel

/-- `determineTransLevel()`: string presentation of the scan result. -/
def determineTransLevel (logLevel : Nat) (logLevels : List (String × Nat)) : String :=
  strLevel (maxOverLevels logLevel logLevels)

/-- `evaluateSettings(settings)` of the current entrypoint: no-op when a
`log` already exists; otherwise resolves the globals, computes the
transport level, builds console and file transports (in that order,
skipping omitted sections; the `syslog` section is never read), and
installs the single `log` instance. -/
def evaluateSettings (settings : Settings) (st : LogState) : LogState :=
  if st.log.isSome then st
  else
    let appNameV := match settings.name with
      | some s => if s != "" then s else DEFAULT_LOGGER_NAME
      | none => DEFAULT_LOGGER_NAME
    let showNameV := getShowName settings.showName
    let showPidV := truthy settings.showPid
    let logLevelsV := match settings.levels with
      | some lvls => getLogLevels lvls st.logLevels
      | none => st.logLevels
    let logLevelV := match settings.level with
      | some s => if s != "" then numLevelStr s else st.logLevel
      | none => st.logLevel
    let transLevel := determineTransLevel logLevelV logLevelsV
    let transports :=
      (match settings.console with
       | some c => [Transport.console (getConsoleTransport c transLevel)]
       | none => []) ++
      (match settings.file with
       | some f => [Transport.file (getFileTransport f transLevel)]
       | none => [])
    { logLevel := logLevelV,
      logLevels := logLevelsV,
      appName := some appNameV,
      showName := some showNameV,
      showPid := some showPidV,
      log := some ⟨transports⟩,
      nrTransports := transports.length }

/-- `init(settings)`: `evaluateSettings(settings || DEFAULT_SETTINGS)`. -/
def init (settings : Option Settings) (st : LogState) : LogState :=
  evaluateSettings (settings.getD DEFAULT_SETTINGS) st

/-- `deinit()`: clears the previous init (note `nrTransports` is not
reset by the source). -/
def deinit (st : LogState) : LogState :=
  { st with
    log := none,
    showName := none,
    showPid := none,
    appName := none,
    logLevels := [],
    logLevel := numLevelStr DEFAULT_LOGLEVEL }

/-- A `TownsvilleLogger` instance: copied name, resolved effective
level, and the process id obtained at construction. -/
structure TownsvilleLogger where
  name : String
  level : Nat
  pid : Nat
deriving DecidableEq, Repr

/-- `createLogger(name)` / the `TownsvilleLogger` constructor: start
from the default `logLevel` and override when `name in logLevels`. -/
def createLogger (name : String) (pid : Nat) (st : LogState) : TownsvilleLogger :=
  { name := name,
    level := match lookupKey st.logLevels name with
      | some l => l
      | none => st.logLevel,
    pid := pid }

/-- `TownsvilleLogger._isToLog(level)`: throws when `log` is undefined,
else compares the instance level against the requested rank. -/
def TownsvilleLogger.isToLog (self : TownsvilleLogger) (st : LogState)
    (level : Nat) : Except JsError Bool :=
  match st.log with
  | none => Except.error JsError.notInitialized
  | some _ => Except.ok (decide (self.level ≥ level))

/-- `typeof arg === 'object'` over the modeled value domain (`null` is
the only `'object'`-typed value among the modeled shapes). -/
def typeofIsObject : JSVal → Bool
  | JSVal.null => true
  | _ => false

/-- The body of the rest-argument loop in `_addToArgs`:
`JSON.stringify` of an `'object'`-typed argument (for `null`, the
serialized form is the string `null`); others pass through. -/
def stringifyArg (arg : JSVal) : JSVal :=
  if typeofIsObject arg then JSVal.str "null" else arg

/-- `TownsvilleLogger._addToArgs(args)`, on the first argument plus the
remaining positional arguments, reading the module globals `showName`,
`showPid` and `appName` (all `undefined` before init; `util.format`
renders an `undefined` `appName` as the string `undefined`). -/
def TownsvilleLogger.addToArgs (self : TownsvilleLogger)
    (showNameV : Option Nat) (showPidV : Option Bool) (appNameV : Option String)
    (arg0 : String) (rest : List JSVal) : String × List JSVal :=
  if showNameV = some SN_NONE ∧ showPidV.getD false = false then
    (arg0, rest)
  else
    let addOn := ""
    let addOn := if showPidV.getD false then addOn ++ "#" ++ toString self.pid else addOn
    let addOn :=
      if (match showNameV with
          | some v => decide (v > SN_NONE)
          | none => false) then
        let addOn := if showPidV.getD false then addOn ++ "-" else addOn
        if showNameV = some SN_FULL then
          addOn ++ appNameV.getD "undefined" ++ "." ++ self.name
        else
          addOn ++ self.name
      else addOn
    ("[" ++ addOn ++ "] " ++ arg0, rest.map stringifyArg)

/-- Observable outcome of an accepted severity method: either the call
was forwarded to the winston instance with the transformed arguments, or
the guard rejected it and the arguments were never touched. -/
inductive LogOutcome where
  | logged (arg0 : String) (rest : List JSVal)
  | skipped
deriving DecidableEq, Repr

/-- Common body of the six severity methods:
`if (this._isToLog(rank) && nrTransports) { this._addToArgs(arguments); log.<m>.apply(null, arguments); }`.
`_isToLog` is evaluated (and may throw) before `nrTransports` is tested. -/
def TownsvilleLogger.severityCall (self : TownsvilleLogger) (st : LogState)
    (rank : Nat) (arg0 : String) (rest : List JSVal) : Except JsError LogOutcome :=
  match self.isToLog st rank with
  | Except.error e => Except.error e
  | Except.ok b =>
    if b && st.nrTransports != 0 then
      let (a, r) := self.addToArgs st.showName st.showPid st.appName arg0 rest
      Except.ok (LogOutcome.logged a r)
    else
      Except.ok LogOutcome.skipped

/-- `TownsvilleLogger.fatal`. -/
def TownsvilleLogger.fatal (self : TownsvilleLogger) (st : LogState)
    (arg0 : String) (rest : List JSVal) : Except JsError LogOutcome :=
  self.severityCall st NR_FATAL arg0 rest

/-- `TownsvilleLogger.error`. -/
def TownsvilleLogger.error (self : TownsvilleLogger) (st : LogState)
    (arg0 : String) (rest : List JSVal) : Except JsError LogOutcome :=
  self.severityCall st NR_ERROR arg0 rest

/-- `TownsvilleLogger.warn`. -/
def TownsvilleLogger.warn (self : TownsvilleLogger) (st : LogState)
    (arg0 : String) (rest : List JSVal) : Except JsError LogOutcome :=
  self.severityCall st NR_WARN arg0 rest

/-- `TownsvilleLogger.info`. -/
def TownsvilleLogger.info (self : TownsvilleLogger) (st : LogState)
    (arg0 : String) (rest : List JSVal) : Except JsError LogOutcome :=
  self.severityCall st NR_INFO arg0 rest

/-- `TownsvilleLogger.debug`. -/
def TownsvilleLogger.debug (self : TownsvilleLogger) (st : LogState)
    (arg0 : String) (rest : List JSVal) : Except JsError LogOutcome :=
  self.severityCall st NR_DEBUG arg0 rest

/-- `TownsvilleLogger.trace`. -/
def TownsvilleLogger.trace (self : TownsvilleLogger) (st : LogState)
    (arg0 : String) (rest : List JSVal) : Except JsError LogOutcome :=
  self.severityCall st NR_TRACE arg0 rest

/-- `TownsvilleLogger.isFatal`. -/
def TownsvilleLogger.isFatal (self : TownsvilleLogger) (st : LogState) :
    Except JsError Bool :=
  self.isToLog st NR_FATAL

/-- `TownsvilleLogger.isError`. -/
def TownsvilleLogger.isError (self : TownsvilleLogger) (st : LogState) :
    Except JsError Bool :=
  self.isToLog st NR_ERROR

/-- `TownsvilleLogger.isWarn`. -/
def TownsvilleLogger.isWarn (self : TownsvilleLogger) (st : LogState) :
    Except JsError Bool :=
  self.isToLog st NR_WARN

/-- `TownsvilleLogger.isInfo`. -/
def TownsvilleLogger.isInfo (self : TownsvilleLogger) (st : LogState) :
    Except JsError Bool :=
  self.isToLog st NR_INFO

/-- `TownsvilleLogger.isDebug`. -/
def TownsvilleLogger.isDebug (self : TownsvilleLogger) (st : LogState) :
    Except JsError Bool :=
  self.isToLog st NR_DEBUG

/-- `TownsvilleLogger.isTrace`. -/
def TownsvilleLogger.isTrace (self : TownsvilleLogger) (st : LogState) :
    Except JsError Bool :=
  self.isToLog st NR_TRACE

deriving instance DecidableEq for Except

/-- The binding a JS object built from the entry list `m` holds for key
`n`: the value of the last entry with that key (later assignments
overwrite earlier ones). -/
def lookupLast (m : List (String × String)) (n : String) : Option String :=
  match m with
  | [] => none
  | (k, v) :: rest =>
    match lookupLast rest n with
    | some r => some r
    | none => if k = n then some v else none

/-- Settings of the test scenario `level: "info", levels: {aap: "error"}`
with a file destination. -/
def moduleLevelsSettings : Settings :=
  { name := some "mylog"
    level := some "info"
    levels := some [("aap", "error")]
    showName := JSVal.bool false
    showPid := JSVal.bool false
    console := none
    file := some
      { path := JSVal.str "/tmp/t.log"
        timestamp := JSVal.bool false
        colorize := JSVal.undef
        rollingFile := none
        tailable := JSVal.undef }
    syslog := none
    colorize := JSVal.undef }

/-- The registry state after `init(moduleLevelsSettings)` from a fresh
process. -/
def moduleLevelsState : LogState := init (some moduleLevelsSettings) initialState

/-- Settings whose only destination is a syslog section with an
unsupported protocol name. -/
def bogusSyslogSettings : Settings :=
  { name := some "mylog"
    level := some "info"
    levels := none
    showName := JSVal.bool false
    showPid := JSVal.bool false
    console := none
    file := none
    syslog := some
      { host := JSVal.undef
        port := JSVal.undef
        protocol := JSVal.str "bogus-protocol"
        path := JSVal.undef
        facility := JSVal.undef
        type := JSVal.undef }
    colorize := JSVal.undef }

end Townsville




namespace Townsville

/-! Helper lemmas about the embedded operations. -/

lemma isToLog_of_none {lg : TownsvilleLogger} {st : LogState} (h : st.log = none)
    (r : Nat) : lg.isToLog st r = Except.error JsError.notInitialized := by
  simp [TownsvilleLogger.isToLog, h]

lemma isToLog_of_some {lg : TownsvilleLogger} {st : LogState} {p : Pipeline}
    (h : st.log = some p) (r : Nat) :
    lg.isToLog st r = Except.ok (decide (lg.level ≥ r)) := by
  simp [TownsvilleLogger.isToLog, h]

lemma severityCall_of_none {lg : TownsvilleLogger} {st : LogState} (h : st.log = none)
    (r : Nat) (f : String) (rest : List JSVal) :
    lg.severityCall st r f rest = Except.error JsError.notInitialized := by
  simp [TownsvilleLogger.severityCall, isToLog_of_none h]

lemma severityCall_of_some {lg : TownsvilleLogger} {st : LogState} {p : Pipeline}
    (h : st.log = some p) (r : Nat) (f : String) (rest : List JSVal) :
    ∃ out, lg.severityCall st r f rest = Except.ok out := by
  rw [TownsvilleLogger.severityCall, isToLog_of_some h]
  dsimp only
  split
  · exact ⟨_, rfl⟩
  · exact ⟨_, rfl⟩

lemma err_inj {α : Type} {a e : JsError}
    (h : (Except.error a : Except JsError α) = Except.error e) : e = a := by
  injection h with h2
  exact h2.symm

lemma evaluateSettings_of_isSome {st : LogState} (s : Settings)
    (h : st.log.isSome = true) : evaluateSettings s st = st := by
  unfold evaluateSettings
  simp [h]

lemma evaluateSettings_log_isSome (s : Settings) (st : LogState) :
    ((evaluateSettings s st).log).isSome = true := by
  unfold evaluateSettings
  by_cases h : st.log.isSome <;> simp [h]

lemma init_log_isSome (s : Option Settings) (st : LogState) :
    ((init s st).log).isSome = true :=
  evaluateSettings_log_isSome _ st

lemma getFileTransport_level (s : FileSettings) (level : String) :
    (getFileTransport s level).level = level := by
  unfold getFileTransport
  cases s.rollingFile <;> rfl

lemma lookupKey_setKey (m : List (String × Nat)) (k : String) (v : Nat) (n : String) :
    lookupKey (setKey m k v) n = if k = n then some v else lookupKey m n := by
  induction m with
  | nil => simp [setKey, lookupKey]
  | cons kv rest ih =>
    obtain ⟨k2, v2⟩ := kv
    by_cases h2 : k2 = k
    · subst h2
      by_cases hn : k2 = n <;> simp [setKey, lookupKey, hn]
    · by_cases hn : k2 = n
      · subst hn
        have hkn : ¬(k = k2) := fun hc => h2 hc.symm
        simp [setKey, h2, lookupKey, hkn]
      · simp [setKey, h2, lookupKey, hn, ih]

lemma lookupKey_getLogLevels (M : List (String × String)) (acc : List (String × Nat))
    (n : String) :
    lookupKey (getLogLevels M acc) n =
      (match lookupLast M n with
       | some v => some (numLevelStr v)
       | none => lookupKey acc n) := by
  induction M generalizing acc with
  | nil => simp [getLogLevels, lookupLast]
  | cons kv rest ih =>
    obtain ⟨k, v⟩ := kv
    have hstep : getLogLevels ((k, v) :: rest) acc =
        getLogLevels rest (setKey acc k (numLevelStr v)) := rfl
    rw [hstep, ih]
    cases h : lookupLast rest n with
    | some r => simp [lookupLast, h]
    | none =>
      by_cases hk : k = n <;> simp [lookupLast, h, lookupKey_setKey, hk]

lemma le_maxOverLevels (d : Nat) (m : List (String × Nat)) : d ≤ maxOverLevels d m := by
  induction m generalizing d with
  | nil => simp [maxOverLevels]
  | cons kv rest ih =>
    have hstep : maxOverLevels d (kv :: rest) =
        maxOverLevels (if kv.2 > d then kv.2 else d) rest := rfl
    rw [hstep]
    refine le_trans ?_ (ih _)
    split <;> omega

lemma mem_le_maxOverLevels (d : Nat) (m : List (String × Nat)) :
    ∀ kv ∈ m, kv.2 ≤ maxOverLevels d m := by
  induction m generalizing d with
  | nil => simp
  | cons kv0 rest ih =>
    intro kv hkv
    have hstep : maxOverLevels d (kv0 :: rest) =
        maxOverLevels (if kv0.2 > d then kv0.2 else d) rest := rfl
    rw [hstep]
    rcases List.mem_cons.mp hkv with h | h
    · subst h
      refine le_trans ?_ (le_maxOverLevels _ _)
      split <;> omega
    · exact ih _ kv h

lemma maxOverLevels_attained (d : Nat) (m : List (String × Nat)) :
    maxOverLevels d m = d ∨ ∃ kv ∈ m, maxOverLevels d m = kv.2 := by
  induction m generalizing d with
  | nil => left; rfl
  | cons kv0 rest ih =>
    have hstep : maxOverLevels d (kv0 :: rest) =
        maxOverLevels (if kv0.2 > d then kv0.2 else d) rest := rfl
    rw [hstep]
    rcases ih (if kv0.2 > d then kv0.2 else d) with h | ⟨kv, hmem, hval⟩
    · by_cases hc : kv0.2 > d
      · right
        exact ⟨kv0, List.mem_cons_self _ _, by rw [h]; simp [hc]⟩
      · left
        rw [h]
        simp [hc]
    · right
      exact ⟨kv, List.mem_cons_of_mem _ hmem, hval⟩

end Townsville

namespace Townsville

/-- C1: for every logger from `createLogger`, while no pipeline is
installed (`log` is `none`) every one of the six severity methods and
six predicate methods raises the not-initialized error; this is the only
error any of the twelve methods ever raises; and once a pipeline is
installed none of them raises. -/
theorem logger_methods_throw_exactly_when_uninitialized :
    ∀ (lg : TownsvilleLogger) (st : LogState) (f : String) (rest : List JSVal),
      (st.log = none →
        lg.fatal st f rest = Except.error JsError.notInitialized ∧
        lg.error st f rest = Except.error JsError.notInitialized ∧
        lg.warn st f rest = Except.error JsError.notInitialized ∧
        lg.info st f rest = Except.error JsError.notInitialized ∧
        lg.debug st f rest = Except.error JsError.notInitialized ∧
        lg.trace st f rest = Except.error JsError.notInitialized ∧
        lg.isFatal st = Except.error JsError.notInitialized ∧
        lg.isError st = Except.error JsError.notInitialized ∧
        lg.isWarn st = Except.error JsError.notInitialized ∧
        lg.isInfo st = Except.error JsError.notInitialized ∧
        lg.isDebug st = Except.error JsError.notInitialized ∧
        lg.isTrace st = Except.error JsError.notInitialized) ∧
      (st.log ≠ none →
        (∃ o, lg.fatal st f rest = Except.ok o) ∧
        (∃ o, lg.error st f rest = Except.ok o) ∧
        (∃ o, lg.warn st f rest = Except.ok o) ∧
        (∃ o, lg.info st f rest = Except.ok o) ∧
        (∃ o, lg.debug st f rest = Except.ok o) ∧
        (∃ o, lg.trace st f rest = Except.ok o) ∧
        (∃ b, lg.isFatal st = Except.ok b) ∧
        (∃ b, lg.isError st = Except.ok b) ∧
        (∃ b, lg.isWarn st = Except.ok b) ∧
        (∃ b, lg.isInfo st = Except.ok b) ∧
        (∃ b, lg.isDebug st = Except.ok b) ∧
        (∃ b, lg.isTrace st = Except.ok b)) ∧
      (∀ e : JsError,
        (lg.fatal st f rest = Except.error e ∨
         lg.error st f rest = Except.error e ∨
         lg.warn st f rest = Except.error e ∨
         lg.info st f rest = Except.error e ∨
         lg.debug st f rest = Except.error e ∨
         lg.trace st f rest = Except.error e ∨
         lg.isFatal st = Except.error e ∨
         lg.isError st = Except.error e ∨
         lg.isWarn st = Except.error e ∨
         lg.isInfo st = Except.error e ∨
         lg.isDebug st = Except.error e ∨
         lg.isTrace st = Except.error e) →
        e = JsError.notInitialized) := by
  intro lg st f rest
  cases hst : st.log with
  | none =>
    refine ⟨fun _ => ?_, fun hne => absurd rfl hne, ?_⟩
    · exact ⟨severityCall_of_none hst _ f rest, severityCall_of_none hst _ f rest,
        severityCall_of_none hst _ f rest, severityCall_of_none hst _ f rest,
        severityCall_of_none hst _ f rest, severityCall_of_none hst _ f rest,
        isToLog_of_none hst _, isToLog_of_none hst _, isToLog_of_none hst _,
        isToLog_of_none hst _, isToLog_of_none hst _, isToLog_of_none hst _⟩
    · intro e he
      rcases he with h | h | h | h | h | h | h | h | h | h | h | h
      all_goals first
        | exact err_inj ((severityCall_of_none hst _ f rest).symm.trans h)
        | exact err_inj ((isToLog_of_none hst _).symm.trans h)
  | some p =>
    refine ⟨fun hno => absurd hno (Option.some_ne_none p), fun _ => ?_, ?_⟩
    · exact ⟨severityCall_of_some hst _ f rest, severityCall_of_some hst _ f rest,
        severityCall_of_some hst _ f rest, severityCall_of_some hst _ f rest,
        severityCall_of_some hst _ f rest, severityCall_of_some hst _ f rest,
        ⟨_, isToLog_of_some hst _⟩, ⟨_, isToLog_of_some hst _⟩, ⟨_, isToLog_of_some hst _⟩,
        ⟨_, isToLog_of_some hst _⟩, ⟨_, isToLog_of_some hst _⟩, ⟨_, isToLog_of_some hst _⟩⟩
    · intro e he
      rcases he with h | h | h | h | h | h | h | h | h | h | h | h
      all_goals first
        | exact Except.noConfusion ((isToLog_of_some hst _).symm.trans h)
        | (obtain ⟨o, ho⟩ := severityCall_of_some hst _ f rest
           exact Except.noConfusion (ho.symm.trans h))

/-- C1 witness: before any init a `fatal` call raises the
not-initialized error; after an init the predicate succeeds. -/
theorem logger_methods_throw_exactly_when_uninitialized_witness :
    (createLogger "aap" 1 initialState).fatal initialState "fatal" [] =
      Except.error JsError.notInitialized ∧
    (∃ b, (createLogger "aap" 1 moduleLevelsState).isFatal moduleLevelsState =
      Except.ok b) :=
  ⟨((logger_methods_throw_exactly_when_uninitialized
      (createLogger "aap" 1 initialState) initialState "fatal" []).1 rfl).1,
   ((logger_methods_throw_exactly_when_uninitialized
      (createLogger "aap" 1 moduleLevelsState) moduleLevelsState "x" []).2.1
      (by decide)).2.2.2.2.2.2.1⟩

end Townsville

namespace Townsville

/-- C2: under an initialized configuration with default level `D` and
per-module override map `M`, a logger for module `n` is bound to the
override for `n` when present and to `D` otherwise, and a call of rank
`r` is accepted iff the effective level is `≥ r`; in particular, with
global level `info` and overrides `{aap: "error"}`, logger `aap` accepts
exactly fatal and error while any other module accepts exactly fatal
through info. -/
theorem effective_level_resolution_and_acceptance :
    (∀ (D : String) (M : List (String × String)) (s : Settings) (st0 : LogState)
       (n : String) (pid r : Nat),
       st0.log = none → st0.logLevels = [] → D ≠ "" →
       s.level = some D → s.levels = some M →
       ((createLogger n pid (evaluateSettings s st0)).level =
          (match lookupLast M n with
           | some v => numLevelStr v
           | none => numLevelStr D)) ∧
       ((createLogger n pid (evaluateSettings s st0)).isToLog (evaluateSettings s st0) r =
          Except.ok (decide ((createLogger n pid (evaluateSettings s st0)).level ≥ r)))) ∧
    ((createLogger "aap" 1 moduleLevelsState).isFatal moduleLevelsState = Except.ok true ∧
     (createLogger "aap" 1 moduleLevelsState).isError moduleLevelsState = Except.ok true ∧
     (createLogger "aap" 1 moduleLevelsState).isWarn moduleLevelsState = Except.ok false ∧
     (createLogger "aap" 1 moduleLevelsState).isInfo moduleLevelsState = Except.ok false ∧
     (createLogger "aap" 1 moduleLevelsState).isDebug moduleLevelsState = Except.ok false ∧
     (createLogger "aap" 1 moduleLevelsState).isTrace moduleLevelsState = Except.ok false) ∧
    (∀ m : String, m ≠ "aap" →
      (createLogger m 1 moduleLevelsState).isFatal moduleLevelsState = Except.ok true ∧
      (createLogger m 1 moduleLevelsState).isError moduleLevelsState = Except.ok true ∧
      (createLogger m 1 moduleLevelsState).isWarn moduleLevelsState = Except.ok true ∧
      (createLogger m 1 moduleLevelsState).isInfo moduleLevelsState = Except.ok true ∧
      (createLogger m 1 moduleLevelsState).isDebug moduleLevelsState = Except.ok false ∧
      (createLogger m 1 moduleLevelsState).isTrace moduleLevelsState = Except.ok false) := by
  refine ⟨?_, ⟨by decide, by decide, by decide, by decide, by decide, by decide⟩, ?_⟩
  · intro D M s st0 n pid r h0 h0l hD hlev hM
    have hs : st0.log.isSome = false := by simp [h0]
    have hD2 : (D != "") = true := by simp [bne_iff_ne, hD]
    constructor
    · simp only [createLogger, evaluateSettings, hs, Bool.false_eq_true, if_false,
        hlev, hM, h0l, hD2, if_true]
      rw [lookupKey_getLogLevels]
      cases h : lookupLast M n <;> simp [h, lookupKey]
    · obtain ⟨p, hp⟩ := Option.isSome_iff_exists.mp (evaluateSettings_log_isSome s st0)
      exact isToLog_of_some hp r
  · intro m hm
    have hne : ("aap" : String) ≠ m := fun hc => hm hc.symm
    have h1 : moduleLevelsState.logLevels = [("aap", 10)] := by decide
    have h2 : moduleLevelsState.logLevel = 30 := by decide
    obtain ⟨p, hp⟩ := Option.isSome_iff_exists.mp
      (show moduleLevelsState.log.isSome = true by decide)
    have hlev : (createLogger m 1 moduleLevelsState).level = 30 := by
      simp [createLogger, h1, h2, lookupKey, hne]
    refine ⟨?_, ?_, ?_, ?_, ?_, ?_⟩ <;>
      simp [TownsvilleLogger.isFatal, TownsvilleLogger.isError, TownsvilleLogger.isWarn,
        TownsvilleLogger.isInfo, TownsvilleLogger.isDebug, TownsvilleLogger.isTrace,
        isToLog_of_some hp, hlev, NR_FATAL, NR_ERROR, NR_WARN, NR_INFO, NR_DEBUG, NR_TRACE]

/-- C2 witness: with default `info` and override `{aap: "error"}`, the
`aap` logger's effective level is the error rank; a logger for another
module accepts `warn`. -/
theorem effective_level_resolution_and_acceptance_witness :
    (createLogger "aap" 1 (evaluateSettings moduleLevelsSettings initialState)).level = 10 ∧
    (createLogger "noot" 1 moduleLevelsState).isWarn moduleLevelsState = Except.ok true :=
  ⟨(effective_level_resolution_and_acceptance.1 "info" [("aap", "error")]
      moduleLevelsSettings initialState "aap" 1 0 rfl rfl (by decide) rfl rfl).1,
   (effective_level_resolution_and_acceptance.2.2 "noot" (by decide)).2.2.1⟩

/-- C3: once init has run, every later `init(settings2)`, for every
`settings2` (also the default settings used when none are given), leaves
the whole registry state — resolved names, flags, levels and the
installed sink set — exactly as the first init produced it. -/
theorem repeated_init_is_silent_noop :
    ∀ (s1 s2 : Option Settings) (st : LogState),
      init s2 (init s1 st) = init s1 st := by
  intro s1 s2 st
  exact evaluateSettings_of_isSome _ (init_log_isSome s1 st)

/-- C4: `maxOverLevels` is the maximum numeric rank over the default
level and all per-module override values (it bounds them, and is
attained by one of them), and every transport the pipeline installs is
configured with the level name of exactly that rank. -/
theorem transport_level_is_least_severe_rank :
    (∀ (d : Nat) (m : List (String × Nat)),
      d ≤ maxOverLevels d m ∧
      (∀ kv ∈ m, kv.2 ≤ maxOverLevels d m) ∧
      (maxOverLevels d m = d ∨ ∃ kv ∈ m, maxOverLevels d m = kv.2) ∧
      determineTransLevel d m = strLevel (maxOverLevels d m)) ∧
    (∀ (s : Settings) (st : LogState), st.log = none →
      ∀ t ∈ (match (evaluateSettings s st).log with
             | some p => p.transports
             | none => []),
        Transport.levelOf t =
          determineTransLevel (evaluateSettings s st).logLevel
            (evaluateSettings s st).logLevels) := by
  constructor
  · intro d m
    exact ⟨le_maxOverLevels d m, mem_le_maxOverLevels d m, maxOverLevels_attained d m, rfl⟩
  · intro s st h0 t ht
    have hs : st.log.isSome = false := by simp [h0]
    simp only [evaluateSettings, hs, Bool.false_eq_true, if_false] at ht ⊢
    rcases List.mem_append.mp ht with h | h
    · cases hc : s.console with
      | none => simp [hc] at h
      | some c =>
        simp only [hc] at h
        rcases List.mem_singleton.mp h with rfl
        rfl
    · cases hf : s.file with
      | none => simp [hf] at h
      | some fsec =>
        simp only [hf] at h
        rcases List.mem_singleton.mp h with rfl
        simp [Transport.levelOf, getFileTransport_level]

/-- C4 witness: with default rank 30 and override rank 10 the maximum
bounds the override, and the file sink built by the example init carries
the computed transport level. -/
theorem transport_level_is_least_severe_rank_witness :
    10 ≤ maxOverLevels 30 [("aap", 10)] ∧
    Transport.levelOf (Transport.file (getFileTransport
      { path := JSVal.str "/tmp/t.log", timestamp := JSVal.bool false,
        colorize := JSVal.undef, rollingFile := none, tailable := JSVal.undef } "info")) =
      determineTransLevel (evaluateSettings moduleLevelsSettings initialState).logLevel
        (evaluateSettings moduleLevelsSettings initialState).logLevels :=
  ⟨(transport_level_is_least_severe_rank.1 30 [("aap", 10)]).2.1 ("aap", 10) (by decide),
   transport_level_is_least_severe_rank.2 moduleLevelsSettings initialState rfl _ (by decide)⟩

end Townsville

namespace Townsville

/-- C5: an accepted severity call forwards the arguments transformed by
`_addToArgs`; when `showName = SN_NONE` and `showPid` is false the first
argument passes through unchanged, and otherwise it becomes
`"[" ++ addon ++ "] "` followed by the original, where `addon` is
`#pid`, the name part (module name for Simple, `appName.moduleName` for
Full), or both joined by `-` exactly when both pid and name are shown. -/
theorem accepted_call_prefix_construction :
    ∀ (lg : TownsvilleLogger) (app f : String) (rest : List JSVal),
      (∀ (st : LogState) (p : Pipeline) (r : Nat),
        st.log = some p →
        (decide (lg.level ≥ r) && st.nrTransports != 0) = true →
        lg.severityCall st r f rest =
          Except.ok (LogOutcome.logged
            (lg.addToArgs st.showName st.showPid st.appName f rest).1
            (lg.addToArgs st.showName st.showPid st.appName f rest).2)) ∧
      (lg.addToArgs (some SN_NONE) (some false) (some app) f rest = (f, rest)) ∧
      ((lg.addToArgs (some SN_NONE) (some true) (some app) f rest).1 =
        "[" ++ "#" ++ toString lg.pid ++ "] " ++ f) ∧
      ((lg.addToArgs (some SN_SIMPLE) (some false) (some app) f rest).1 =
        "[" ++ lg.name ++ "] " ++ f) ∧
      ((lg.addToArgs (some SN_FULL) (some false) (some app) f rest).1 =
        "[" ++ app ++ "." ++ lg.name ++ "] " ++ f) ∧
      ((lg.addToArgs (some SN_SIMPLE) (some true) (some app) f rest).1 =
        "[" ++ "#" ++ toString lg.pid ++ "-" ++ lg.name ++ "] " ++ f) ∧
      ((lg.addToArgs (some SN_FULL) (some true) (some app) f rest).1 =
        "[" ++ "#" ++ toString lg.pid ++ "-" ++ app ++ "." ++ lg.name ++ "] " ++ f) := by
  intro lg app f rest
  refine ⟨?_, rfl, rfl, rfl, rfl, rfl, rfl⟩
  intro st p r h1 h2
  rw [TownsvilleLogger.severityCall, isToLog_of_some h1]
  simp [h2]

/-- C5 witness: an accepted `info` call in the no-prefix configuration
passes its first argument through unchanged. -/
theorem accepted_call_prefix_construction_witness :
    (createLogger "noot" 1 moduleLevelsState).info moduleLevelsState "info" [] =
      Except.ok (LogOutcome.logged "info" []) :=
  (accepted_call_prefix_construction (createLogger "noot" 1 moduleLevelsState)
      "mylog" "info" []).1
    moduleLevelsState
    ⟨[Transport.file
        { level := "info", filename := JSVal.str "/tmp/t.log",
          fmt := { colorize := false, timestamp := false },
          maxsize := JSVal.undef, maxFiles := JSVal.undef, tailable := JSVal.undef }]⟩
    NR_INFO (by decide) (by decide)

/-- C6 counterexample: `numLevel` applied to a missing (`undefined`)
level name raises a `TypeError` instead of returning the Trace rank. -/
theorem numLevel_undefined_raises_type_error :
    numLevel JSVal.undef = Except.error JsError.typeError := rfl

/-- C6 (amended): on every string input `numLevel` is total and never
raises — recognized names are matched case-insensitively and every
unrecognized string maps to the Trace rank — while every non-string
input (including a missing `undefined` name) raises a `TypeError`. -/
theorem numLevel_total_on_strings_case_insensitive :
    (∀ s : String, numLevel (JSVal.str s) = Except.ok (numLevelStr s)) ∧
    (∀ s t : String, jsToLower s = jsToLower t → numLevelStr s = numLevelStr t) ∧
    (∀ s : String,
      jsToLower s ∉ (["fatal", "error", "warn", "info", "debug", "trace"] : List String) →
      numLevelStr s = NR_TRACE) ∧
    (numLevelStr "FATAL" = NR_FATAL ∧ numLevelStr "Error" = NR_ERROR ∧
     numLevelStr "warn" = NR_WARN ∧ numLevelStr "Info" = NR_INFO ∧
     numLevelStr "DEBUG" = NR_DEBUG ∧ numLevelStr "trace" = NR_TRACE) ∧
    (∀ v : JSVal, (∀ s : String, v ≠ JSVal.str s) →
      numLevel v = Except.error JsError.typeError) := by
  refine ⟨fun s => rfl, ?_, ?_,
    ⟨by decide, by decide, by decide, by decide, by decide, by decide⟩, ?_⟩
  · intro s t h
    simp [numLevelStr, h]
  · intro s hs
    simp only [List.mem_cons, List.not_mem_nil, or_false, not_or] at hs
    obtain ⟨h1, h2, h3, h4, h5, h6⟩ := hs
    simp [numLevelStr, h1, h2, h3, h4, h5, h6]
  · intro v hv
    cases v
    case str s => exact absurd rfl (hv s)
    all_goals rfl

/-- C6 witness: an unrecognized string maps to Trace, lookup is
case-insensitive, and the non-string `null` raises. -/
theorem numLevel_total_on_strings_case_insensitive_witness :
    numLevelStr "bogus" = NR_TRACE ∧
    numLevelStr "WaRn" = numLevelStr "warn" ∧
    numLevel JSVal.null = Except.error JsError.typeError :=
  ⟨numLevel_total_on_strings_case_insensitive.2.2.1 "bogus" (by decide),
   numLevel_total_on_strings_case_insensitive.2.1 "WaRn" "warn" (by decide),
   numLevel_total_on_strings_case_insensitive.2.2.2.2 JSVal.null
     (fun s h => JSVal.noConfusion h)⟩

/-- C7 counterexample: the empty string is falsy, yet `getShowName`
returns Simple for it, not None. -/
theorem getShowName_empty_string_simple_despite_falsy :
    truthy (JSVal.str "") = false ∧ getShowName (JSVal.str "") = SN_SIMPLE ∧
    SN_SIMPLE ≠ SN_NONE :=
  ⟨rfl, by decide, by decide⟩

/-- C7 (amended): `getShowName` returns Full for `"full"` and None for
`"none"`/`"false"` (case-insensitively); every other string — truthy or
not, including the empty string — yields Simple; non-string values yield
Simple when truthy and None when falsy or absent. -/
theorem getShowName_resolution :
    (∀ s : String, jsToLower s = "full" → getShowName (JSVal.str s) = SN_FULL) ∧
    (∀ s : String, jsToLower s = "none" ∨ jsToLower s = "false" →
      getShowName (JSVal.str s) = SN_NONE) ∧
    (∀ s : String, jsToLower s ≠ "full" → jsToLower s ≠ "none" → jsToLower s ≠ "false" →
      getShowName (JSVal.str s) = SN_SIMPLE) ∧
    (∀ v : JSVal, (∀ s : String, v ≠ JSVal.str s) → truthy v = true →
      getShowName v = SN_SIMPLE) ∧
    (∀ v : JSVal, (∀ s : String, v ≠ JSVal.str s) → truthy v = false →
      getShowName v = SN_NONE) := by
  refine ⟨?_, ?_, ?_, ?_, ?_⟩
  · intro s h
    simp [getShowName, h]
  · intro s h
    rcases h with h | h <;> simp [getShowName, h]
  · intro s h1 h2 h3
    simp [getShowName, h1, h2, h3]
  · intro v hv ht
    cases v
    case str s => exact absurd rfl (hv s)
    all_goals simp [getShowName, truthy] at ht ⊢ <;> simp [ht]
  · intro v hv ht
    cases v
    case str s => exact absurd rfl (hv s)
    all_goals simp [getShowName, truthy] at ht ⊢ <;> simp [ht]

/-- C7 witness: the resolver at one concrete input of each class. -/
theorem getShowName_resolution_witness :
    getShowName (JSVal.str "FULL") = SN_FULL ∧
    getShowName (JSVal.str "None") = SN_NONE ∧
    getShowName (JSVal.str "simple") = SN_SIMPLE ∧
    getShowName (JSVal.bool true) = SN_SIMPLE ∧
    getShowName JSVal.undef = SN_NONE :=
  ⟨getShowName_resolution.1 "FULL" (by decide),
   getShowName_resolution.2.1 "None" (Or.inl (by decide)),
   getShowName_resolution.2.2.1 "simple" (by decide) (by decide) (by decide),
   getShowName_resolution.2.2.2.1 (JSVal.bool true) (fun s h => JSVal.noConfusion h) rfl,
   getShowName_resolution.2.2.2.2 JSVal.undef (fun s h => JSVal.noConfusion h) rfl⟩

/-- C8 counterexample: init on settings whose only destination is a
syslog section with an unsupported protocol name does not fail with a
configuration error; it installs a pipeline (with an empty sink set),
so the registry does not remain uninitialized. -/
theorem init_installs_pipeline_despite_invalid_syslog_protocol :
    (init (some bogusSyslogSettings) initialState).log = some ⟨[]⟩ ∧
    (init (some bogusSyslogSettings) initialState).log ≠ none := by
  constructor
  · decide
  · decide

/-- C8 (amended): the current `evaluateSettings` never inspects the
remote (syslog) destination configuration, so init behaves identically
whatever that section contains — no destination validation or
configuration error can arise from it. -/
theorem evaluateSettings_ignores_syslog_destination :
    ∀ (s : Settings) (sy : Option SyslogSettings) (st : LogState),
      evaluateSettings { s with syslog := sy } st = evaluateSettings s st := by
  intro s sy st
  cases s
  rfl

/-- C9: the name of each declared rank maps back to that rank, and the
rank-to-name table is total, returning `"trace"` for every rank outside
the declared set. -/
theorem declared_rank_roundtrip_and_name_total :
    (numLevelStr (strLevel NR_FATAL) = NR_FATAL ∧
     numLevelStr (strLevel NR_ERROR) = NR_ERROR ∧
     numLevelStr (strLevel NR_WARN) = NR_WARN ∧
     numLevelStr (strLevel NR_INFO) = NR_INFO ∧
     numLevelStr (strLevel NR_DEBUG) = NR_DEBUG ∧
     numLevelStr (strLevel NR_TRACE) = NR_TRACE) ∧
    (∀ r : Nat, r ∉ ([NR_FATAL, NR_ERROR, NR_WARN, NR_INFO, NR_DEBUG, NR_TRACE] : List Nat) →
      strLevel r = "trace") := by
  constructor
  · exact ⟨by decide, by decide, by decide, by decide, by decide, by decide⟩
  · intro r hr
    simp only [List.mem_cons, List.not_mem_nil, or_false, not_or] at hr
    obtain ⟨h1, h2, h3, h4, h5, h6⟩ := hr
    simp [strLevel, h1, h2, h3, h4, h5, h6]

/-- C9 witness: an undeclared rank maps to `"trace"`. -/
theorem declared_rank_roundtrip_and_name_total_witness : strLevel 7 = "trace" :=
  declared_rank_roundtrip_and_name_total.2 7 (by decide)

/-- C10: when a file destination has a `rollingFile` section, the
constructed sink's `tailable` option is `true` when
`rollingFile.tailable` is `undefined` and otherwise equals the top-level
`tailable` field of the file settings, not the supplied
`rollingFile.tailable` value. -/
theorem file_transport_tailable_reads_top_level_field :
    ∀ (s : FileSettings) (rf : RollingFileSettings) (level : String),
      s.rollingFile = some rf →
      ((rf.tailable = JSVal.undef → (getFileTransport s level).tailable = JSVal.bool true) ∧
       (rf.tailable ≠ JSVal.undef → (getFileTransport s level).tailable = s.tailable)) := by
  intro s rf level h
  constructor <;> intro ht <;> simp [getFileTransport, h, ht]

/-- C10 witness: an explicit `rollingFile.tailable = false` is ignored —
the sink gets the (absent) top-level field instead; and an unset
`rollingFile.tailable` yields `true`. -/
theorem file_transport_tailable_reads_top_level_field_witness :
    (getFileTransport
      { path := JSVal.undef, timestamp := JSVal.undef, colorize := JSVal.undef,
        rollingFile := some { maxSize := JSVal.undef, maxFiles := JSVal.undef,
                              tailable := JSVal.bool false },
        tailable := JSVal.undef } "info").tailable = JSVal.undef ∧
    (getFileTransport
      { path := JSVal.undef, timestamp := JSVal.undef, colorize := JSVal.undef,
        rollingFile := some { maxSize := JSVal.undef, maxFiles := JSVal.undef,
                              tailable := JSVal.undef },
        tailable := JSVal.bool false } "warn").tailable = JSVal.bool true :=
  ⟨(file_transport_tailable_reads_top_level_field _ _ "info" rfl).2 (by decide),
   (file_transport_tailable_reads_top_level_field _ _ "warn" rfl).1 rfl⟩

end Townsville
